import Mathlib

/-!
Shallow embedding of `src/app.py`, a minimal FastAPI "Trading Backtesting"
service.  The mutable pieces of the process are the module-level list
`uploaded_files` and the files written under `data/uploads`; they are
modelled as an explicit `ServerState` threaded through the handlers.

Modelling conventions:
* Uploaded raw bytes are modelled as their decoded UTF-8 text, a `List Char`
  (`upload_file` decodes the bytes with `content.decode('utf-8')` before any
  other effect; a decode failure path is outside the content domain used
  here).  The byte length `len(content)` of the original bytes is recovered
  as the sum of the UTF-8 sizes of the characters (`utf8Len`).
* Python floats are modelled as exact rationals (`Rat`); `round(x, 2)`
  is modelled as exact half-to-even rounding at two decimals, ignoring
  binary floating-point representation error.
* `datetime` timestamps are modelled as opaque `Nat` values; the handler
  receives the current time as an argument (`datetime.utcnow()`).
* `csv.reader` record segmentation is modelled for content containing no
  quote character and no carriage return: each `'\n'`-terminated line is one
  record, and a final unterminated line is a record as well (`io.StringIO`
  line splitting).  Theorems about row counting carry these restrictions as
  hypotheses.
* `json.loads` (Python standard library) is modelled as an oracle argument
  of type `Option PyJson`: `some v` models a successful parse to the JSON
  value `v` (not necessarily a dict), `none` models a raised exception
  (invalid JSON).  An exception raised outside the bare `try/except` — a
  non-dict parse at `params.get`, a non-numeric `starting_balance` at the
  `+ 2500.0` — is unhandled in the source and surfaces as HTTP 500, the
  framework's behavior for an unhandled exception; it is modelled as
  `Except.error 500`.
-/

namespace TradingApp

/-- Upload directory `os.path.join(DATA_DIR, "uploads")` with `DATA_DIR = "data"`. -/
def UPLOAD_DIR : String := "data/uploads"

/-- Model of Python `s.endswith(pat)`: suffix test on the character
sequences. -/
def endswith (s pat : String) : Bool :=
  pat.data.isSuffixOf s.data

/-- Model of POSIX `os.path.join dir name`: an absolute `name` discards `dir`,
otherwise the parts are joined with a single separator. -/
def ospath_join (dir name : String) : String :=
  if name.data.head? = some '/' then name else dir ++ "/" ++ name

/-- Byte length of the UTF-8 encoding of the decoded content: `len(content)`
for the raw bytes read from the upload. -/
def utf8Len (cs : List Char) : Nat :=
  (cs.map Char.utf8Size).sum

/-- Number of records `csv.reader` yields over `io.StringIO(text)` for text
without quote characters or carriage returns: one record per line, where a
final line not terminated by a newline still counts. -/
def recordCount (cs : List Char) : Nat :=
  match cs.getLast? with
  | none => 0
  | some c => cs.count '\n' + (if c = '\n' then 0 else 1)

/-- Row count computed by `upload_file`: `next(csv_reader, None)` skips the
header record (doing nothing on empty input) and `sum(1 for _ in csv_reader)`
counts the remaining records. -/
def countRows (content : List Char) : Nat :=
  recordCount content - 1

/-- Exact half-to-even rounding of a rational to an integer, Python's
`round` tie-breaking rule. -/
def pyRoundInt (q : Rat) : Int :=
  let f : Int := q.floor
  let frac : Rat := q - (f : Rat)
  if frac < 1/2 then f
  else if 1/2 < frac then f + 1
  else if f % 2 = 0 then f else f + 1

/-- Python `round(q, 2)` on the exact rational model. -/
def pyRound2 (q : Rat) : Rat :=
  (pyRoundInt (q * 100) : Rat) / 100

/-- Pydantic model `FileInfo` from `src/app.py`. -/
structure FileInfo where
  filename : String
  symbol : String
  uploaded_at : Nat
  row_count : Nat
  size_mb : Rat
  status : String
deriving DecidableEq

/-- Response body returned by a successful `POST /upload`.  The source also
returns a `message` string derived only from the filename; it is omitted. -/
structure UploadResponse where
  filename : String
  size_mb : Rat
  row_count : Nat
  symbol : String
deriving DecidableEq

/-- Process state: the module-level list `uploaded_files` and the files
written on disk, as an association list from path to written content. -/
structure ServerState where
  uploaded_files : List FileInfo
  disk : List (String × List Char)
deriving DecidableEq

/-- Write (create or overwrite) the file at path `p` with content `c`. -/
def diskWrite (d : List (String × List Char)) (p : String) (c : List Char) :
    List (String × List Char) :=
  match d with
  | [] => [(p, c)]
  | (q, v) :: rest => if q = p then (p, c) :: rest else (q, v) :: diskWrite rest p c

/-- Content of the file at path `p`, when one exists. -/
def diskLookup (d : List (String × List Char)) (p : String) : Option (List Char) :=
  match d with
  | [] => none
  | (q, v) :: rest => if q = p then some v else diskLookup rest p

/-- Sample record appended by `initialize_sample_data`: `FileInfo(filename=
"sample_data.csv", symbol="NIFTY", uploaded_at=datetime(2024, 11, 13, 2, 0, 0),
row_count=1000, size_mb=0.05, status="uploaded")`.  The timestamp is encoded
as the `Nat` 20241113020000. -/
def sample_file : FileInfo :=
  { filename := "sample_data.csv"
    symbol := "NIFTY"
    uploaded_at := 20241113020000
    row_count := 1000
    size_mb := 1/20
    status := "uploaded" }

/-- Startup hook `initialize_sample_data`: appends the sample record only if
the list is empty. -/
def initialize_sample_data (files : List FileInfo) : List FileInfo :=
  if files.isEmpty then files ++ [sample_file] else files

/-- State of the process right after import: empty disk directory and the
registry seeded by `initialize_sample_data()`. -/
def initialState : ServerState :=
  { uploaded_files := initialize_sample_data [], disk := [] }

/-- Record constructed by `upload_file` on success. -/
def mkFileInfo (filename symbol : String) (now : Nat) (content : List Char) : FileInfo :=
  { filename := filename
    symbol := symbol
    uploaded_at := now
    row_count := countRows content
    size_mb := pyRound2 ((utf8Len content : Rat) / (1024 * 1024))
    status := "uploaded" }

/-- Handler `POST /upload`.  Rejects filenames not ending in `.csv` with
HTTP 400 before any other effect; otherwise counts CSV rows, writes the raw
content at `os.path.join(UPLOAD_DIR, file.filename)`, appends a `FileInfo`
record to `uploaded_files` and returns the response body.  The error value
is the HTTP status code of the raised `HTTPException`. -/
def upload_file (st : ServerState) (filename symbol : String) (now : Nat)
    (content : List Char) : ServerState × Except Nat UploadResponse :=
  if !(endswith filename ".csv") then
    (st, Except.error 400)
  else
    let file_path := ospath_join UPLOAD_DIR filename
    let row_count := countRows content
    let disk' := diskWrite st.disk file_path content
    let size_mb : Rat := (utf8Len content : Rat) / (1024 * 1024)
    let info := mkFileInfo filename symbol now content
    ({ uploaded_files := st.uploaded_files ++ [info], disk := disk' },
     Except.ok { filename := filename, size_mb := size_mb,
                 row_count := row_count, symbol := symbol })

/-- Handler `GET /api/files/`: returns the registry records in list order
(the per-record `dict()` serialization is the identity in this model). -/
def list_files (st : ServerState) : List FileInfo :=
  st.uploaded_files

/-- Python value produced by `json.loads`: any JSON value, not only objects.
Numbers are modelled as exact rationals. -/
inductive PyJson where
  | null
  | bool (b : Bool)
  | num (q : Rat)
  | str (s : String)
  | arr (l : List PyJson)
  | obj (l : List (String × PyJson))

/-- Python `params.get(k, default)` on a dict value. -/
def pyjson_get (d : List (String × PyJson)) (k : String) (default : PyJson) : PyJson :=
  match d.lookup k with
  | some v => v
  | none => default

/-- Python `v + 2500.0`: defined for numbers and booleans (a Python `bool`
is an `int`), a `TypeError` for every other value. -/
def py_add_2500 : PyJson → Option Rat
  | PyJson.num q => some (q + 2500)
  | PyJson.bool b => some ((if b then 1 else 0) + 2500)
  | _ => none

/-- Parameter parsing in `run_backtest`: `params = json.loads(params_json) if
params_json else {}` wrapped in a bare `try/except` that silently replaces a
raised exception (`loads_result = none`) with `{}`.  A successful parse to a
non-dict value is NOT replaced: it flows on to `params.get` and raises
there, outside the `try`. -/
def parse_params (params_json : String) (loads_result : Option PyJson) : PyJson :=
  if params_json = "" then PyJson.obj [] else loads_result.getD (PyJson.obj [])

/-- Hardcoded per-backtest metrics in `mock_results`. -/
structure BacktestMetrics where
  total_trades : Nat
  winning_trades : Nat
  losing_trades : Nat
  win_rate : Rat
  total_pnl : Rat
  avg_pnl : Rat
  max_drawdown : Rat
  sharpe_ratio : Rat
  best_trade : Rat
  worst_trade : Rat
  final_balance : Rat
deriving DecidableEq

/-- Hardcoded demo trade row in `mock_results`. -/
structure TradeRecord where
  entry_time : String
  exit_time : String
  type : String
  entry_price : Rat
  exit_price : Rat
  pnl : Rat
  outcome : String
deriving DecidableEq

/-- Local `mock_results` value built by `run_backtest` (and then discarded). -/
structure MockResults where
  filename : String
  parameters : List (String × PyJson)
  metrics : BacktestMetrics
  trades : List TradeRecord
  status : String
  message : String

/-- The `mock_results` dictionary of `run_backtest`: every metric is a fixed
literal except `final_balance = starting_balance + 2500.0`, received here
already computed (its evaluation can raise, see `run_backtest`). -/
def mkMockResults (filename : String) (params : List (String × PyJson))
    (final_balance : Rat) : MockResults :=
  { filename := filename
    parameters := params
    metrics :=
      { total_trades := 25
        winning_trades := 15
        losing_trades := 10
        win_rate := 3/5
        total_pnl := 2500
        avg_pnl := 100
        max_drawdown := -500
        sharpe_ratio := 6/5
        best_trade := 350
        worst_trade := -200
        final_balance := final_balance }
    trades :=
      [{ entry_time := "2024-01-01 10:00:00"
         exit_time := "2024-01-01 10:30:00"
         type := "LONG"
         entry_price := 4500
         exit_price := 4512
         pnl := 150
         outcome := "WIN" }]
    status := "completed"
    message := "Backtesting completed successfully!" }

/-- Response body of `POST /backtests`: the handler returns only
`\x7b"id": "demo-123"\x7d`. -/
structure BacktestRunResponse where
  id : String
deriving DecidableEq

/-- Handler `POST /backtests`: rejects filenames not ending in `.csv` with
HTTP 400 (the raised `HTTPException`), parses the optional parameters with
the silent fallback, computes `starting_balance = params.get(...)` and
`final_balance = starting_balance + 2500.0` OUTSIDE the `try/except`, builds
`mock_results` and returns only the constant id.  When the parsed parameters
are not a dict, `params.get` raises `AttributeError`; when
`starting_balance` is not a number, the addition raises `TypeError`; both
are unhandled and surface as HTTP 500, modelled as `Except.error 500`.  The
handler never touches `uploaded_files` or the disk, and never reads the
uploaded content. -/
def run_backtest (filename : String) (content : List Char) (params_json : String)
    (loads_result : Option PyJson) : Except Nat BacktestRunResponse :=
  if !(endswith filename ".csv") then
    Except.error 400
  else
    let params := parse_params params_json loads_result
    let _content := content
    match params with
    | PyJson.obj d =>
      match py_add_2500 (pyjson_get d "starting_balance" (PyJson.num 10000)) with
      | some fb =>
        let _mock := mkMockResults filename d fb
        Except.ok { id := "demo-123" }
      | none => Except.error 500
    | _ => Except.error 500

/-- Parameter-string/oracle pairs on which `run_backtest`'s parameter
handling raises no uncaught exception: the parsed value is a dict (after the
empty-string and caught-exception fallbacks) whose `starting_balance` entry,
defaulting to 10000, supports `+ 2500.0`. -/
def params_not_raising (params_json : String) (loads_result : Option PyJson) : Bool :=
  match parse_params params_json loads_result with
  | PyJson.obj d =>
    (py_add_2500 (pyjson_get d "starting_balance" (PyJson.num 10000))).isSome
  | _ => false

/-- Segments of a path, split at every slash. -/
def splitSlash (cs : List Char) : List (List Char) :=
  match cs with
  | [] => [[]]
  | c :: rest =>
    let r := splitSlash rest
    if c = '/' then [] :: r
    else
      match r with
      | [] => [[c]]
      | seg :: segs => (c :: seg) :: segs

/-- One step of POSIX path normalization over a reversed stack of kept
segments: `.` and empty segments vanish, `..` pops a kept segment (or is
kept itself at the front of a relative path). -/
def normStep (stack : List (List Char)) (seg : List Char) : List (List Char) :=
  if seg = ['.'] ∨ seg = [] then stack
  else if seg = ['.', '.'] then
    match stack with
    | [] => [seg]
    | s :: rest => if s = ['.', '.'] then seg :: stack else rest
  else seg :: stack

/-- Join path segments with slashes. -/
def joinSegs : List (List Char) → List Char
  | [] => []
  | [s] => s
  | s :: rest => s ++ '/' :: joinSegs rest

/-- POSIX-style normalization of a relative path (`posixpath.normpath`
restricted to paths without a leading slash): resolves `.` and `..`
segments.  Used only to state where a written path actually points. -/
def normalizePath (p : String) : String :=
  ⟨joinSegs (((splitSlash p.data).foldl normStep []).reverse)⟩

/-- Whether a path lies inside the upload directory: its normalized form
starts with the `data/uploads/` segment sequence. -/
def insideUploadDir (p : String) : Bool :=
  (UPLOAD_DIR ++ "/").data.isPrefixOf (normalizePath p).data

/-- States reachable by the service: the post-startup state followed by any
sequence of upload requests (the other handlers do not change the state). -/
inductive Reachable : ServerState → Prop
  | init : Reachable initialState
  | upload (st : ServerState) (filename symbol : String) (now : Nat)
      (content : List Char) : Reachable st →
      Reachable (upload_file st filename symbol now content).1

example : countRows "t,p\n1,100\n2,101\n3,102\n".data = 3 := by decide
example : countRows "t,p\n".data = 0 := by decide
example : countRows "".data = 0 := by decide
example : countRows "t,p".data = 0 := by decide
/-! ### Helper lemmas -/

theorem upload_file_reject (st : ServerState) (filename symbol : String) (now : Nat)
    (content : List Char) (h : endswith filename ".csv" = false) :
    upload_file st filename symbol now content = (st, Except.error 400) := by
  simp [upload_file, h]

theorem upload_file_accept (st : ServerState) (filename symbol : String) (now : Nat)
    (content : List Char) (h : endswith filename ".csv" = true) :
    upload_file st filename symbol now content =
      ({ uploaded_files := st.uploaded_files ++ [mkFileInfo filename symbol now content],
         disk := diskWrite st.disk (ospath_join UPLOAD_DIR filename) content },
       Except.ok { filename := filename,
                   size_mb := (utf8Len content : Rat) / (1024 * 1024),
                   row_count := countRows content, symbol := symbol }) := by
  simp [upload_file, h]

theorem diskLookup_diskWrite_self (d : List (String × List Char)) (p : String)
    (c : List Char) : diskLookup (diskWrite d p c) p = some c := by
  induction d with
  | nil => simp [diskWrite, diskLookup]
  | cons hd tl ih =>
    obtain ⟨q, v⟩ := hd
    by_cases hq : q = p <;> simp [diskWrite, diskLookup, hq, ih]

theorem diskLookup_diskWrite_ne (d : List (String × List Char)) (p q : String)
    (c : List Char) (h : q ≠ p) :
    diskLookup (diskWrite d p c) q = diskLookup d q := by
  have hpq : p ≠ q := Ne.symm h
  induction d with
  | nil => simp [diskWrite, diskLookup, hpq]
  | cons hd tl ih =>
    obtain ⟨r, v⟩ := hd
    by_cases hr : r = p
    · subst hr
      simp [diskWrite, diskLookup, hpq]
    · simp [diskWrite, diskLookup, hr, ih]

theorem mem_drop_one_concat {α : Type _} {f x : α} {l : List α}
    (h : f ∈ (l ++ [x]).drop 1) : f ∈ l.drop 1 ∨ f = x := by
  cases l with
  | nil => simp at h
  | cons a l' =>
    simp only [List.cons_append, List.drop_succ_cons, List.drop_zero,
      List.mem_append, List.mem_singleton] at h
    simpa using h

theorem count_nl_join_map (rows : List (List Char)) (hr : ∀ r ∈ rows, '\n' ∉ r) :
    ((rows.map (fun r => r ++ ['\n'])).flatten).count '\n' = rows.length := by
  induction rows with
  | nil => simp
  | cons r rs ih =>
    have h0 : r.count '\n' = 0 := List.count_eq_zero.mpr (hr r (by simp))
    simp only [List.map_cons, List.flatten_cons, List.count_append, h0,
      ih (fun s hs => hr s (by simp [hs]))]
    simp [Nat.add_comm]

theorem getLast?_join_map_nl (rows : List (List Char)) (h : rows ≠ []) :
    ((rows.map (fun r => r ++ ['\n'])).flatten).getLast? = some '\n' := by
  induction rows with
  | nil => exact absurd rfl h
  | cons r rs ih =>
    cases rs with
    | nil => simp
    | cons r' rs' =>
      have hjoin : (((r :: r' :: rs').map (fun s => s ++ ['\n'])).flatten) =
          (r ++ ['\n']) ++ ((r' :: rs').map (fun s => s ++ ['\n'])).flatten := by
        simp
      rw [hjoin, List.getLast?_append_of_ne_nil]
      · exact ih (by simp)
      · intro hnil
        have := ih (by simp)
        rw [hnil] at this
        simp at this

theorem recordCount_of_getLast_nl (cs : List Char) (h : cs.getLast? = some '\n') :
    recordCount cs = cs.count '\n' := by
  unfold recordCount
  rw [h]
  simp

theorem countRows_header_rows (header : List Char) (rows : List (List Char))
    (hh : '\n' ∉ header) (hr : ∀ r ∈ rows, '\n' ∉ r) :
    countRows (header ++ '\n' :: (rows.map (fun r => r ++ ['\n'])).flatten) =
      rows.length := by
  have hlast : (header ++ '\n' :: (rows.map (fun r => r ++ ['\n'])).flatten).getLast? =
      some '\n' := by
    rw [List.getLast?_append_cons]
    cases rows with
    | nil => simp
    | cons r rs =>
      have hne : (((r :: rs).map (fun s => s ++ ['\n'])).flatten) ≠ [] := by
        intro hnil
        have := getLast?_join_map_nl (r :: rs) (by simp)
        rw [hnil] at this
        simp at this
      have : ('\n' :: ((r :: rs).map (fun s => s ++ ['\n'])).flatten) =
          ['\n'] ++ ((r :: rs).map (fun s => s ++ ['\n'])).flatten := rfl
      rw [this, List.getLast?_append_of_ne_nil _ hne]
      exact getLast?_join_map_nl (r :: rs) (by simp)
  rw [countRows, recordCount_of_getLast_nl _ hlast]
  have h0 : header.count '\n' = 0 := List.count_eq_zero.mpr hh
  rw [List.count_append, h0, List.count_cons_self,
    count_nl_join_map rows hr]
  simp

theorem countRows_no_nl (header : List Char) (hh : '\n' ∉ header) :
    countRows header = 0 := by
  cases hlast : header.getLast? with
  | none => simp [countRows, recordCount, hlast]
  | some c =>
    have hmem : c ∈ header := by
      obtain ⟨hne, hceq⟩ := List.mem_getLast?_eq_getLast (l := header) (x := c)
        (by rw [Option.mem_def]; exact hlast)
      rw [hceq]
      exact List.getLast_mem hne
    have hc : c ≠ '\n' := by
      intro hceq
      subst hceq
      exact hh hmem
    have h0 : header.count '\n' = 0 := List.count_eq_zero.mpr hh
    simp [countRows, recordCount, hlast, hc, h0]

theorem run_backtest_ok_of_not_raising (f : String) (c : List Char) (p : String)
    (l : Option PyJson) (hf : endswith f ".csv" = true)
    (hp : params_not_raising p l = true) :
    run_backtest f c p l = Except.ok { id := "demo-123" } := by
  unfold params_not_raising at hp
  cases hq : parse_params p l with
  | obj d =>
    rw [hq] at hp
    have hp' : (py_add_2500 (pyjson_get d "starting_balance" (PyJson.num 10000))).isSome
        = true := hp
    cases hadd : py_add_2500 (pyjson_get d "starting_balance" (PyJson.num 10000)) with
    | some fb => simp [run_backtest, hf, hq, hadd]
    | none =>
      rw [hadd] at hp'
      exact Bool.noConfusion hp'
  | null => rw [hq] at hp; exact Bool.noConfusion hp
  | bool b => rw [hq] at hp; exact Bool.noConfusion hp
  | num q => rw [hq] at hp; exact Bool.noConfusion hp
  | str s => rw [hq] at hp; exact Bool.noConfusion hp
  | arr l2 => rw [hq] at hp; exact Bool.noConfusion hp

/-! ### Claim theorems -/

/-- Claim C1: for every upload whose content is one newline-free header line
followed by `N` newline-terminated data rows (no quote or carriage-return
characters, the domain on which the csv model is faithful), `upload_file`
returns `row_count = N`; a header alone yields row count `0`; and the example
content `"t,p\n1,100\n2,101\n3,102\n"` yields `row_count = 3` with the stored
file equal to the content, whose byte length is `22 = len(content)`. -/
theorem upload_row_count_matches_data_rows
    (st : ServerState) (filename symbol : String) (now : Nat)
    (header : List Char) (rows : List (List Char))
    (hcsv : endswith filename ".csv" = true)
    (hh : '\n' ∉ header) (hr : ∀ r ∈ rows, '\n' ∉ r)
    (_hq : ∀ r ∈ header :: rows, Char.ofNat 34 ∉ r ∧ '\r' ∉ r) :
    (Except.map UploadResponse.row_count
        (upload_file st filename symbol now
          (header ++ '\n' :: (rows.map (fun r => r ++ ['\n'])).flatten)).2 =
      Except.ok rows.length)
    ∧ countRows (header ++ ['\n']) = 0
    ∧ (Except.map UploadResponse.row_count
        (upload_file initialState "ticks.csv" "NIFTY" 0
          "t,p\n1,100\n2,101\n3,102\n".data).2 = Except.ok 3)
    ∧ diskLookup (upload_file initialState "ticks.csv" "NIFTY" 0
          "t,p\n1,100\n2,101\n3,102\n".data).1.disk
        (ospath_join UPLOAD_DIR "ticks.csv") = some "t,p\n1,100\n2,101\n3,102\n".data
    ∧ utf8Len "t,p\n1,100\n2,101\n3,102\n".data = 22 := by
  refine ⟨?_, ?_, by rfl, by rfl, by decide⟩
  · rw [upload_file_accept st filename symbol now _ hcsv]
    simp [Except.map, countRows_header_rows header rows hh hr]
  · have h := countRows_header_rows header [] hh (by simp)
    simpa using h

/-- Witness for C1 at a concrete two-row upload. -/
theorem upload_row_count_matches_data_rows_witness :
    Except.map UploadResponse.row_count
        (upload_file initialState "data.csv" "S" 0
          ("t,p".data ++ '\n' ::
            (["1,100".data, "2,101".data].map (fun r => r ++ ['\n'])).flatten)).2 =
      Except.ok 2 :=
  (upload_row_count_matches_data_rows initialState "data.csv" "S" 0 "t,p".data
    ["1,100".data, "2,101".data] (by decide) (by decide) (by decide) (by decide)).1

/-- Claim C2: a filename that does not end in the case-sensitive suffix
".csv" is rejected with HTTP 400 and the state — registry and disk — is
completely unchanged. -/
theorem upload_rejects_non_csv_filename
    (st : ServerState) (filename symbol : String) (now : Nat) (content : List Char)
    (h : endswith filename ".csv" = false) :
    upload_file st filename symbol now content = (st, Except.error 400) :=
  upload_file_reject st filename symbol now content h

/-- Witness for C2 at the uppercase filename "data.CSV". -/
theorem upload_rejects_non_csv_filename_witness :
    upload_file initialState "data.CSV" "S" 0 "h\n1\n".data =
      (initialState, Except.error 400) :=
  upload_rejects_non_csv_filename initialState "data.CSV" "S" 0 "h\n1\n".data
    (by decide)

/-- Counterexample to claim C3 as stated: in the startup state the seeded
sample record sits in the registry while the disk holds no file at all, in
particular none at the sample record's upload path. -/
theorem seeded_record_has_no_file_counterexample :
    initialState.uploaded_files = [sample_file]
    ∧ diskLookup initialState.disk (ospath_join UPLOAD_DIR sample_file.filename) = none
    ∧ initialState.disk = [] :=
  ⟨rfl, rfl, rfl⟩

/-- Claim C3 amended: in every reachable state, every registry record other
than the head seeded sample record was created by an upload and has a
corresponding file written on disk at its upload path. -/
theorem upload_created_records_have_files
    (st : ServerState) (hst : Reachable st) :
    ∀ f ∈ st.uploaded_files.drop 1,
      ∃ c, diskLookup st.disk (ospath_join UPLOAD_DIR f.filename) = some c := by
  induction hst with
  | init =>
    intro f hf
    simp [initialState, initialize_sample_data] at hf
  | upload st fn sym now content _ ih =>
    intro f hf
    cases hcsv : endswith fn ".csv" with
    | false =>
      rw [upload_file_reject st fn sym now content hcsv] at hf ⊢
      exact ih f hf
    | true =>
      rw [upload_file_accept st fn sym now content hcsv] at hf ⊢
      simp only at hf ⊢
      rcases mem_drop_one_concat hf with hmem | heq
      · obtain ⟨c0, hc0⟩ := ih f hmem
        by_cases hp : ospath_join UPLOAD_DIR f.filename = ospath_join UPLOAD_DIR fn
        · exact ⟨content, by rw [hp]; exact diskLookup_diskWrite_self _ _ _⟩
        · exact ⟨c0, by rw [diskLookup_diskWrite_ne _ _ _ _ hp]; exact hc0⟩
      · subst heq
        exact ⟨content, by simp [mkFileInfo]; exact diskLookup_diskWrite_self _ _ _⟩

/-- Witness for the amended C3 at the state reached by one upload. -/
theorem upload_created_records_have_files_witness :
    ∃ c, diskLookup (upload_file initialState "a.csv" "S" 0 "h\n1\n".data).1.disk
        (ospath_join UPLOAD_DIR (mkFileInfo "a.csv" "S" 0 "h\n1\n".data).filename) =
      some c :=
  upload_created_records_have_files _
    (Reachable.upload initialState "a.csv" "S" 0 "h\n1\n".data Reachable.init)
    (mkFileInfo "a.csv" "S" 0 "h\n1\n".data) (List.Mem.head _)

/-- Claim C4, evaluated at the failing input: re-uploading the registered
filename "a.csv" appends a second registry entry rather than replacing the
prior record or rejecting the request — after the second upload the registry
holds two records with that filename. -/
theorem reupload_appends_duplicate_entry :
    ((upload_file (upload_file initialState "a.csv" "S" 0 "h\n1\n".data).1
          "a.csv" "S" 1 "h\n1\n2\n".data).1.uploaded_files.filter
        (fun f => f.filename == "a.csv")).length = 2 := by
  decide

/-- Counterexample to claim C5 as stated: the traversal filename
"../../etc/passwd.csv" is not rejected — the upload succeeds and writes the
file at "data/uploads/../../etc/passwd.csv", which normalizes to
"etc/passwd.csv", outside the upload directory. -/
theorem traversal_filename_not_rejected_counterexample :
    ((upload_file initialState "../../etc/passwd.csv" "S" 0 "h\n1\n".data).2.isOk = true)
    ∧ diskLookup
        (upload_file initialState "../../etc/passwd.csv" "S" 0 "h\n1\n".data).1.disk
        "data/uploads/../../etc/passwd.csv" = some "h\n1\n".data
    ∧ insideUploadDir "data/uploads/../../etc/passwd.csv" = false
    ∧ normalizePath "data/uploads/../../etc/passwd.csv" = "etc/passwd.csv" :=
  ⟨by decide, by decide, by decide, by decide⟩

/-- Claim C5 amended: `upload_file` performs no filename sanitization: any
filename ending in ".csv" — including one with ".." traversal segments — is
accepted and its content written at the raw join of the upload directory and
the client filename, while any other filename (including "../../etc/passwd")
is rejected with HTTP 400 and nothing is written. -/
theorem upload_writes_at_unsanitized_join
    (st : ServerState) (filename symbol : String) (now : Nat) (content : List Char) :
    (endswith filename ".csv" = true →
      (upload_file st filename symbol now content).1.disk =
        diskWrite st.disk (ospath_join UPLOAD_DIR filename) content)
    ∧ (endswith filename ".csv" = false →
      upload_file st filename symbol now content = (st, Except.error 400)) := by
  constructor
  · intro h
    rw [upload_file_accept st filename symbol now content h]
  · intro h
    exact upload_file_reject st filename symbol now content h

/-- Witness for the amended C5 at a traversal filename. -/
theorem upload_writes_at_unsanitized_join_witness :
    (upload_file initialState "../../etc/passwd.csv" "S" 0 "h\n".data).1.disk =
      diskWrite initialState.disk (ospath_join UPLOAD_DIR "../../etc/passwd.csv")
        "h\n".data :=
  (upload_writes_at_unsanitized_join initialState "../../etc/passwd.csv" "S" 0
    "h\n".data).1 (by decide)

/-- Counterexample to claim C6 as stated: with the same ".csv" filename and
the same content, the parameter string "42" — valid JSON for the non-dict
value `42`, so `json.loads` succeeds and `params.get` then raises an
uncaught `AttributeError` (HTTP 500) — and the empty parameter string
produce different responses: the result does depend on the supplied
parameter string. -/
theorem backtest_response_depends_on_params_counterexample :
    run_backtest "data.csv" "h\n1\n".data "42" (some (PyJson.num 42)) =
      Except.error 500
    ∧ run_backtest "data.csv" "h\n1\n".data "" none =
        Except.ok { id := "demo-123" }
    ∧ run_backtest "data.csv" "h\n1\n".data "42" (some (PyJson.num 42)) ≠
        run_backtest "data.csv" "h\n1\n".data "" none :=
  ⟨rfl, rfl, fun h => Except.noConfusion h⟩

/-- Claim C6 amended: the backtest response never depends on the uploaded
file's content (it is never read), and any two calls with ".csv" filenames
whose parameter strings avoid the uncaught-exception path — empty, invalid
JSON, or a JSON dict whose starting_balance is numeric, boolean or absent —
return the same constant id response; a parameter string parsing to a
non-dict value, or to a dict with a non-numeric starting_balance, instead
raises an uncaught exception (HTTP 500). -/
theorem backtest_constant_within_non_raising_params
    (f1 f2 : String) (ca cb : List Char) (p1 p2 : String) (l1 l2 : Option PyJson)
    (h1 : endswith f1 ".csv" = true) (h2 : endswith f2 ".csv" = true)
    (g1 : params_not_raising p1 l1 = true) (g2 : params_not_raising p2 l2 = true) :
    run_backtest f1 ca p1 l1 = run_backtest f1 cb p1 l1
    ∧ run_backtest f1 ca p1 l1 = run_backtest f2 cb p2 l2
    ∧ run_backtest f1 ca p1 l1 = Except.ok { id := "demo-123" } := by
  refine ⟨rfl, ?_, run_backtest_ok_of_not_raising f1 ca p1 l1 h1 g1⟩
  rw [run_backtest_ok_of_not_raising f1 ca p1 l1 h1 g1,
    run_backtest_ok_of_not_raising f2 cb p2 l2 h2 g2]

/-- Witness for the amended C6 at two calls differing in filename, content
and parameters (the second parameter string is the JSON dict literal with
starting_balance 5). -/
theorem backtest_constant_within_non_raising_params_witness :
    run_backtest "a.csv" "h\n1\n".data "" none =
      run_backtest "a.csv" "x\n9\n8\n".data "" none
    ∧ run_backtest "a.csv" "h\n1\n".data "" none =
        run_backtest "b.csv" "x\n9\n8\n".data "\x7b\x22starting_balance\x22: 5\x7d"
          (some (PyJson.obj [("starting_balance", PyJson.num 5)]))
    ∧ run_backtest "a.csv" "h\n1\n".data "" none = Except.ok { id := "demo-123" } :=
  backtest_constant_within_non_raising_params "a.csv" "b.csv" "h\n1\n".data
    "x\n9\n8\n".data "" "\x7b\x22starting_balance\x22: 5\x7d" none
    (some (PyJson.obj [("starting_balance", PyJson.num 5)]))
    (by decide) (by decide) (by decide) (by decide)

/-- Counterexample to claim C7 as stated: with the invalid parameter string
"not json" (the `json.loads` oracle is `none`, a raised exception) the
backtest call succeeds with silently-defaulted parameters — indistinguishable
from supplying no parameters — instead of reporting an error. -/
theorem invalid_params_silently_defaulted_counterexample :
    run_backtest "data.csv" "h\n1\n".data "not json" none =
      Except.ok { id := "demo-123" }
    ∧ parse_params "not json" none = parse_params "" none :=
  ⟨rfl, rfl⟩

/-- Claim C7 amended: the bare `try/except` maps every `json.loads` failure
(`loads_result = none`, every string that is not valid JSON) to the empty
parameter dict and the backtest call succeeds; the invalid parameters are
never reported to the caller. -/
theorem invalid_params_swallowed
    (filename : String) (content : List Char) (params_json : String)
    (h : endswith filename ".csv" = true) :
    parse_params params_json none = PyJson.obj []
    ∧ run_backtest filename content params_json none =
        Except.ok { id := "demo-123" } := by
  have hp : parse_params params_json none = PyJson.obj [] := by
    simp [parse_params]
  refine ⟨hp, ?_⟩
  exact run_backtest_ok_of_not_raising filename content params_json none h
    (by simp [params_not_raising, hp, pyjson_get, py_add_2500])

/-- Witness for the amended C7 at a concrete invalid parameter string. -/
theorem invalid_params_swallowed_witness :
    parse_params "not json" none = PyJson.obj []
    ∧ run_backtest "data.csv" "h\n1\n".data "not json" none =
        Except.ok { id := "demo-123" } :=
  invalid_params_swallowed "data.csv" "h\n1\n".data "not json" (by decide)

/-- Claim C8: listing returns records in insertion order: uploading "a.csv"
then "b.csv" appends their records in that order after all prior records. -/
theorem list_files_insertion_order
    (st : ServerState) (sa sb : String) (ta tb : Nat) (ca cb : List Char) :
    list_files (upload_file (upload_file st "a.csv" sa ta ca).1 "b.csv" sb tb cb).1 =
      list_files st ++ [mkFileInfo "a.csv" sa ta ca, mkFileInfo "b.csv" sb tb cb] := by
  rw [upload_file_accept st "a.csv" sa ta ca (by decide)]
  rw [upload_file_accept _ "b.csv" sb tb cb (by decide)]
  simp [list_files]

/-- Claim C9: a successful upload appends exactly one record at the tail of
the registry leaving every prior record in place, a failed upload leaves the
whole state unchanged, and the startup seeding likewise only ever appends. -/
theorem upload_appends_one_record_frame
    (st : ServerState) (filename symbol : String) (now : Nat) (content : List Char) :
    ((upload_file st filename symbol now content).2.isOk = true →
      (upload_file st filename symbol now content).1.uploaded_files =
        st.uploaded_files ++ [mkFileInfo filename symbol now content])
    ∧ ((upload_file st filename symbol now content).2.isOk = false →
      (upload_file st filename symbol now content).1 = st)
    ∧ (∃ rest, initialize_sample_data st.uploaded_files =
        st.uploaded_files ++ rest) := by
  refine ⟨?_, ?_, ?_⟩
  · intro h
    cases hcsv : endswith filename ".csv" with
    | false =>
      rw [upload_file_reject st filename symbol now content hcsv] at h
      simp [Except.isOk, Except.toBool] at h
    | true =>
      rw [upload_file_accept st filename symbol now content hcsv]
  · intro h
    cases hcsv : endswith filename ".csv" with
    | false =>
      rw [upload_file_reject st filename symbol now content hcsv]
    | true =>
      rw [upload_file_accept st filename symbol now content hcsv] at h
      simp [Except.isOk, Except.toBool] at h
  · by_cases he : st.uploaded_files.isEmpty
    · exact ⟨[sample_file], by simp [initialize_sample_data, he]⟩
    · exact ⟨[], by simp [initialize_sample_data, he]⟩

/-- Witness for C9 at a concrete successful upload. -/
theorem upload_appends_one_record_frame_witness :
    (upload_file initialState "a.csv" "S" 5 "h\n1\n".data).1.uploaded_files =
      initialState.uploaded_files ++ [mkFileInfo "a.csv" "S" 5 "h\n1\n".data] :=
  (upload_appends_one_record_frame initialState "a.csv" "S" 5 "h\n1\n".data).1
    (by decide)

/-- Claim C10: seeding appends exactly the one sample record when the
registry is empty, adds nothing when it is non-empty, and is idempotent. -/
theorem seed_only_when_empty_and_idempotent (files : List FileInfo) :
    (files = [] → initialize_sample_data files = [sample_file])
    ∧ (files ≠ [] → initialize_sample_data files = files)
    ∧ initialize_sample_data (initialize_sample_data files) =
        initialize_sample_data files := by
  refine ⟨?_, ?_, ?_⟩
  · intro h
    subst h
    rfl
  · intro h
    simp [initialize_sample_data, h]
  · by_cases h : files = []
    · subst h
      rfl
    · simp [initialize_sample_data, h]

/-- Witness for C10 at the empty and a non-empty registry. -/
theorem seed_only_when_empty_and_idempotent_witness :
    initialize_sample_data [] = [sample_file]
    ∧ initialize_sample_data [sample_file] = [sample_file] :=
  ⟨(seed_only_when_empty_and_idempotent []).1 rfl,
   (seed_only_when_empty_and_idempotent [sample_file]).2.1 (by decide)⟩

/-! ### Sanity checks on concrete inputs -/

example : endswith "a.csv" ".csv" = true := by decide
example : endswith "a.CSV" ".csv" = false := by decide
example : normalizePath "data/uploads/../../etc/passwd.csv" = "etc/passwd.csv" := by
  decide
example : insideUploadDir "data/uploads/../../etc/passwd.csv" = false := by decide
example : insideUploadDir "data/uploads/a.csv" = true := by decide
example : utf8Len "t,p\n1,100\n2,101\n3,102\n".data = 22 := by decide
example : (upload_file initialState "a.csv" "S" 0 "h\n1\n".data).2.isOk = true := by
  decide

end TradingApp
